import Mathlib

/-
Verification of the EVision-Berlin domain layer: the PostalCode,
PopulationData and GeoLocation value objects and their validation and
classification rules.  Pure functions are embedded directly; Python
exceptions become `Except` results.
-/

namespace EVision

/-- Enumeration for population density categories, from
`src/shared/domain/enums.py` (`PopulationDensityCategory`). -/
inductive PopulationDensityCategory where
  | LOW
  | MEDIUM
  | HIGH
deriving DecidableEq, Repr

/-- String value of each density category, as in the Python `Enum` values. -/
def PopulationDensityCategory.toValue : PopulationDensityCategory → String
  | PopulationDensityCategory.LOW => "LOW"
  | PopulationDensityCategory.MEDIUM => "MEDIUM"
  | PopulationDensityCategory.HIGH => "HIGH"

/-- Modelled from the spec: the `PostalCode` value object is missing from
the sources (only its tests and callers are present).  Spec §4.1 and the
`PostalCodeValidatedEvent` docstring describe it: an immutable wrapper of a
5-digit numeric string whose prefix lies in the Berlin allow-list
(10, 12, 13, 14). -/
structure PostalCode where
  value : String
deriving DecidableEq, Repr

/-- Modelled from the spec: format check of `PostalCode` — exactly 5
numeric characters. -/
def postalCodeFormatOk (v : String) : Bool :=
  v.toList.length = 5 && v.toList.all Char.isDigit

/-- Modelled from the spec: regional admissibility of `PostalCode` — the
two-character prefix must be in the Berlin allow-list (the
`PostalCodeValidatedEvent` docstring lists 10, 12, 13, 14). -/
def postalCodeRegionOk (v : String) : Bool :=
  ["10", "12", "13", "14"].contains (String.mk (v.toList.take 2))

/-- Modelled from the spec: construction of `PostalCode`; fails with a
validation error naming the offending value when the format or the region
check fails. -/
def PostalCode.create (v : String) : Except String PostalCode :=
  if postalCodeFormatOk v = false then
    Except.error ("Invalid postal code format: " ++ v)
  else if postalCodeRegionOk v = false then
    Except.error ("Postal code is not in Berlin region: " ++ v)
  else
    Except.ok ⟨v⟩

/-- Modelled from the spec: the `PopulationData` value object is missing
from the sources (only its tests are present).  Spec §3/§4.2: an immutable
pair of a postal code and a non-negative population count. -/
structure PopulationData where
  postal_code : PostalCode
  population : Nat
deriving DecidableEq, Repr

/-- Modelled from the spec: construction of `PopulationData` fails when
population < 0, with an error naming the negative value (the tests pin the
message "Population cannot be negative, got: -1"). -/
def PopulationData.create (pc : PostalCode) (population : Int) :
    Except String PopulationData :=
  if population < 0 then
    Except.error ("Population cannot be negative, got: " ++ toString population)
  else
    Except.ok ⟨pc, population.toNat⟩

/-- Modelled from the spec: `get_population` returns the wrapped count. -/
def PopulationData.get_population (pd : PopulationData) : Nat :=
  pd.population

/-- Modelled from the spec: `get_population_density_category` uses fixed
thresholds — ≤ 10000 LOW, 10001–20000 MEDIUM, > 20000 HIGH (spec §4.2 and
§8; the tests pin 10000 → LOW and 10001 → MEDIUM). -/
def PopulationData.get_population_density_category (pd : PopulationData) : String :=
  if pd.population ≤ 10000 then PopulationDensityCategory.LOW.toValue
  else if pd.population ≤ 20000 then PopulationDensityCategory.MEDIUM.toValue
  else PopulationDensityCategory.HIGH.toValue

/-- Modelled from the spec: `is_high_density` is population > 15000. -/
def PopulationData.is_high_density (pd : PopulationData) : Bool :=
  pd.population > 15000

/-- Modelled from the spec: `calculate_demand_ratio` = population /
station_count, returning the population unchanged when station_count = 0,
and 0.0 when the population is 0.  The float result is modelled as a
rational. -/
def PopulationData.calculate_demand_ratio (pd : PopulationData)
    (station_count : Nat) : Rat :=
  if pd.population = 0 then 0
  else if station_count = 0 then (pd.population : Rat)
  else (pd.population : Rat) / (station_count : Rat)

/-- A `geopandas` GeoDataFrame, modelled as its list of geometry rows
(each row's parsed geometry kept abstractly as a string); `empty` is true
when the frame has no rows, matching `DataFrame.empty`. -/
structure GeoDataFrame where
  rows : List String
deriving DecidableEq, Repr

/-- Emptiness of a GeoDataFrame: no rows. -/
def GeoDataFrame.isEmptyFrame (g : GeoDataFrame) : Bool :=
  g.rows.isEmpty

/-- A Python value handed to `GeoLocation(boundary=...)`: `None`, a WKT
string, a GeoDataFrame, or any other object (`GeoLocation.boundary` is
typed `Any`; an integer stands for the non-geometry case). -/
inductive PyVal where
  | none
  | str (s : String)
  | gdf (g : GeoDataFrame)
  | int (n : Int)
deriving DecidableEq, Repr

/-- Errors a `GeoLocation` construction can surface: its own
`InvalidGeoLocationError`, or an exception re-raised unchanged from the
WKT parser. -/
inductive GeoError where
  | invalidGeoLocation (msg : String)
  | parseFailure (msg : String)
deriving DecidableEq, Repr

/-- The validation message of `GeoLocation.__post_init__`. -/
def invalidBoundaryMsg : String :=
  "Geo Location boundary cannot be None or empty."

/-- Embedding of `_process_boundary` from `GeoLocation.py`: an empty WKT
string yields `None`; otherwise the external parser (`GeoSeries.from_wkt`,
passed as `parse`) runs on the string, a failure is re-raised, and a
success is wrapped in a one-row GeoDataFrame. -/
def processBoundary (parse : String → Except String String)
    (boundary_wkt : String) : Except String (Option GeoDataFrame) :=
  if boundary_wkt = "" then Except.ok Option.none
  else
    match parse boundary_wkt with
    | Except.error e => Except.error e
    | Except.ok geom => Except.ok (Option.some ⟨[geom]⟩)

/-- The `GeoLocation` value object after successful construction: a postal
code and the stored boundary value. -/
structure GeoLocation where
  postal_code : PostalCode
  boundary : PyVal
deriving DecidableEq, Repr

/-- Embedding of `GeoLocation.__post_init__`: a string boundary is first
processed through `_process_boundary` (parser exceptions propagate); then
the stored boundary is validated — `None`, or a GeoDataFrame that is
empty, raises `InvalidGeoLocationError`; anything else is stored as is. -/
def GeoLocation.create (parse : String → Except String String)
    (pc : PostalCode) (boundary : PyVal) : Except GeoError GeoLocation :=
  match boundary with
  | PyVal.str s =>
    match processBoundary parse s with
    | Except.error e => Except.error (GeoError.parseFailure e)
    | Except.ok Option.none => Except.error (GeoError.invalidGeoLocation invalidBoundaryMsg)
    | Except.ok (Option.some g) =>
      if g.isEmptyFrame then Except.error (GeoError.invalidGeoLocation invalidBoundaryMsg)
      else Except.ok ⟨pc, PyVal.gdf g⟩
  | PyVal.none => Except.error (GeoError.invalidGeoLocation invalidBoundaryMsg)
  | PyVal.gdf g =>
    if g.isEmptyFrame then Except.error (GeoError.invalidGeoLocation invalidBoundaryMsg)
    else Except.ok ⟨pc, PyVal.gdf g⟩
  | PyVal.int n => Except.ok ⟨pc, PyVal.int n⟩

/-- Embedding of the `GeoLocation.empty` property: the stored boundary is
`None`, or is a GeoDataFrame and is empty. -/
def GeoLocation.empty (gl : GeoLocation) : Bool :=
  match gl.boundary with
  | PyVal.none => true
  | PyVal.gdf g => g.isEmptyFrame
  | _ => false

/-- The boundary value as stored after the optional WKT parse of
`__post_init__` but before validation: a string is replaced by the result
of `_process_boundary` (`None` or a GeoDataFrame), any other value is kept
unchanged.  Used to characterize when validation rejects. -/
def resolveBoundary (parse : String → Except String String)
    (boundary : PyVal) : Except String PyVal :=
  match boundary with
  | PyVal.str s =>
    match processBoundary parse s with
    | Except.error e => Except.error e
    | Except.ok Option.none => Except.ok PyVal.none
    | Except.ok (Option.some g) => Except.ok (PyVal.gdf g)
  | b => Except.ok b

/-- C1: for every population p ≥ 0 and every station count s,
`calculate_demand_ratio(s)` returns p/s when s > 0, returns p when s = 0,
and returns 0.0 when p = 0 regardless of s. -/
theorem demand_ratio_characterization (pd : PopulationData) (s : Nat) :
    (0 < s → PopulationData.calculate_demand_ratio pd s = (pd.population : Rat) / (s : Rat))
    ∧ PopulationData.calculate_demand_ratio pd 0 = (pd.population : Rat)
    ∧ (pd.population = 0 → PopulationData.calculate_demand_ratio pd s = 0) := by
  unfold PopulationData.calculate_demand_ratio
  refine ⟨?_, ?_, ?_⟩
  · intro hs
    by_cases hp : pd.population = 0
    · simp [hp]
    · simp [hp, Nat.pos_iff_ne_zero.mp hs]
  · by_cases hp : pd.population = 0
    · simp [hp]
    · simp [hp]
  · intro hp
    simp [hp]

/-- Witness for C1 at population 30000 and 5 stations, the end-to-end
example of spec §8. -/
theorem demand_ratio_characterization_witness :
    PopulationData.calculate_demand_ratio ⟨⟨"10115"⟩, 30000⟩ 5 = 6000 := by
  have h := (demand_ratio_characterization ⟨⟨"10115"⟩, 30000⟩ 5).1 (by norm_num)
  rw [h]
  norm_num

/-- C2: for every population p ≥ 0, `get_population_density_category`
returns "LOW" when p ≤ 10000, "MEDIUM" when 10001 ≤ p ≤ 20000 and "HIGH"
when p > 20000; in particular 10000 maps to LOW, 10001 and 20000 to
MEDIUM, and 20001 to HIGH. -/
theorem density_category_characterization (pd : PopulationData) (pc : PostalCode) :
    (pd.population ≤ 10000 → PopulationData.get_population_density_category pd = "LOW")
    ∧ (10001 ≤ pd.population ∧ pd.population ≤ 20000 →
        PopulationData.get_population_density_category pd = "MEDIUM")
    ∧ (20000 < pd.population → PopulationData.get_population_density_category pd = "HIGH")
    ∧ PopulationData.get_population_density_category ⟨pc, 10000⟩ = "LOW"
    ∧ PopulationData.get_population_density_category ⟨pc, 10001⟩ = "MEDIUM"
    ∧ PopulationData.get_population_density_category ⟨pc, 20000⟩ = "MEDIUM"
    ∧ PopulationData.get_population_density_category ⟨pc, 20001⟩ = "HIGH" := by
  unfold PopulationData.get_population_density_category
  refine ⟨?_, ?_, ?_, by rfl, by rfl, by rfl, by rfl⟩
  · intro h
    rw [if_pos h]
    rfl
  · intro h
    rw [if_neg (by omega), if_pos (by omega)]
    rfl
  · intro h
    rw [if_neg (by omega), if_neg (by omega)]
    rfl

/-- Witness for C2 at population 5000 (LOW). -/
theorem density_category_characterization_witness :
    PopulationData.get_population_density_category ⟨⟨"10115"⟩, 5000⟩ = "LOW" :=
  (density_category_characterization ⟨⟨"10115"⟩, 5000⟩ ⟨"10115"⟩).1 (by norm_num)

/-- C3 counterexample: at population exactly 10000 the density category is
"LOW", not "MEDIUM" as the data-model boundary notation of the spec
claims; the tests pin this value to LOW. -/
theorem density_at_10000_not_medium :
    ¬ PopulationData.get_population_density_category ⟨⟨"10115"⟩, 10000⟩ = "MEDIUM" := by
  decide

/-- C3 amended: a population of exactly 10000 is classified as LOW (the
MEDIUM band starts at 10001). -/
theorem density_at_10000_low (pc : PostalCode) :
    PopulationData.get_population_density_category ⟨pc, 10000⟩ = "LOW" := by
  rfl

/-- C4: `is_high_density` returns True exactly when the population exceeds
15000; in particular 15000 → False and 15001 → True, a threshold
independent of the 20000 HIGH-category boundary. -/
theorem is_high_density_characterization (pd : PopulationData) :
    ( PopulationData.is_high_density pd = true ↔ 15000 < pd.population)
    ∧ ∀ pc : PostalCode, PopulationData.is_high_density ⟨pc, 15000⟩ = false
      ∧ PopulationData.is_high_density ⟨pc, 15001⟩ = true
      ∧ PopulationData.get_population_density_category ⟨pc, 15001⟩ = "MEDIUM" := by
  constructor
  · unfold PopulationData.is_high_density
    exact decide_eq_true_iff
  · intro pc
    exact ⟨by rfl, by rfl, by rfl⟩

/-- Witness for C4 at population 15001. -/
theorem is_high_density_characterization_witness :
    PopulationData.is_high_density ⟨⟨"10115"⟩, 15001⟩ = true :=
  (is_high_density_characterization ⟨⟨"10115"⟩, 15001⟩).1.mpr (by norm_num)

/-- C5: constructing `PopulationData` with a negative population fails
with a validation error naming the negative value, population 0 succeeds,
and construction fails exactly when population < 0. -/
theorem population_validation (pc : PostalCode) (population : Int) :
    (population < 0 →
      PopulationData.create pc population =
        Except.error ("Population cannot be negative, got: " ++ toString population))
    ∧ (0 ≤ population →
      PopulationData.create pc population = Except.ok ⟨pc, population.toNat⟩)
    ∧ PopulationData.create pc 0 = Except.ok ⟨pc, 0⟩ := by
  unfold PopulationData.create
  refine ⟨?_, ?_, by rfl⟩
  · intro h
    rw [if_pos h]
  · intro h
    rw [if_neg (by omega)]

/-- Witness for C5 at population -1. -/
theorem population_validation_witness :
    PopulationData.create ⟨"10115"⟩ (-1) =
      Except.error "Population cannot be negative, got: -1" := by
  have h := (population_validation ⟨"10115"⟩ (-1)).1 (by norm_num)
  rw [h]
  rfl

/-- C8: two `PostalCode` value objects constructed from identical valid
string values are equal, and constructing one whose prefix is outside the
Berlin allow-list ("99999") fails with a validation error. -/
theorem postal_code_equality_and_region (v : String) (p1 p2 : PostalCode) :
    ( PostalCode.create v = Except.ok p1 → PostalCode.create v = Except.ok p2 → p1 = p2)
    ∧ PostalCode.create "99999" =
        Except.error "Postal code is not in Berlin region: 99999" := by
  constructor
  · intro h1 h2
    have h3 := h1.symm.trans h2
    injection h3
  · rfl

/-- Witness for C8: two constructions from "10115" give equal values. -/
theorem postal_code_equality_and_region_witness :
    PostalCode.create "10115" = Except.ok ⟨"10115"⟩
    ∧ (⟨"10115"⟩ : PostalCode) = ⟨"10115"⟩ :=
  ⟨by rfl, (postal_code_equality_and_region "10115" ⟨"10115"⟩ ⟨"10115"⟩).1 (by rfl) (by rfl)⟩

/-- C6: constructing `GeoLocation` with boundary `None`, with an empty WKT
string, or with an empty GeoDataFrame raises `InvalidGeoLocationError`,
while a WKT string the parser accepts yields a non-empty one-row parsed
boundary whose `empty` property is false. -/
theorem geolocation_validation (parse : String → Except String String)
    (pc : PostalCode) :
    GeoLocation.create parse pc PyVal.none =
      Except.error (GeoError.invalidGeoLocation invalidBoundaryMsg)
    ∧ GeoLocation.create parse pc (PyVal.str "") =
      Except.error (GeoError.invalidGeoLocation invalidBoundaryMsg)
    ∧ GeoLocation.create parse pc (PyVal.gdf ⟨[]⟩) =
      Except.error (GeoError.invalidGeoLocation invalidBoundaryMsg)
    ∧ ∀ s g, s ≠ "" → parse s = Except.ok g →
      GeoLocation.create parse pc (PyVal.str s) = Except.ok ⟨pc, PyVal.gdf ⟨[g]⟩⟩
      ∧ GeoDataFrame.isEmptyFrame ⟨[g]⟩ = false
      ∧ GeoLocation.empty ⟨pc, PyVal.gdf ⟨[g]⟩⟩ = false := by
  refine ⟨by rfl, by rfl, by rfl, ?_⟩
  intro s g hs hp
  refine ⟨?_, by rfl, by rfl⟩
  simp [GeoLocation.create, processBoundary, hs, hp, GeoDataFrame.isEmptyFrame]

/-- Witness for C6 with the test-suite polygon WKT and a parser that
accepts it. -/
theorem geolocation_validation_witness :
    GeoLocation.create (fun t => Except.ok t) ⟨"10115"⟩
      (PyVal.str "POLYGON ((13.4 52.5, 13.5 52.5, 13.5 52.6, 13.4 52.6, 13.4 52.5))") =
      Except.ok ⟨⟨"10115"⟩,
        PyVal.gdf ⟨["POLYGON ((13.4 52.5, 13.5 52.5, 13.5 52.6, 13.4 52.6, 13.4 52.5))"]⟩⟩
    ∧ GeoLocation.empty ⟨⟨"10115"⟩,
        PyVal.gdf ⟨["POLYGON ((13.4 52.5, 13.5 52.5, 13.5 52.6, 13.4 52.6, 13.4 52.5))"]⟩⟩
      = false := by
  have h := (geolocation_validation (fun t => Except.ok t) ⟨"10115"⟩).2.2.2
    "POLYGON ((13.4 52.5, 13.5 52.5, 13.5 52.6, 13.4 52.6, 13.4 52.5))"
    "POLYGON ((13.4 52.5, 13.5 52.5, 13.5 52.6, 13.4 52.6, 13.4 52.5))"
    (by decide) (by rfl)
  exact ⟨h.1, h.2.2⟩

/-- C7: when the boundary is a non-empty string whose WKT parse fails, the
parser's exception is propagated unchanged — the result is the parser's
error, not `InvalidGeoLocationError`. -/
theorem parse_error_propagation (parse : String → Except String String)
    (pc : PostalCode) (s e : String) (hs : s ≠ "")
    (hp : parse s = Except.error e) :
    GeoLocation.create parse pc (PyVal.str s) =
      Except.error (GeoError.parseFailure e) := by
  simp [GeoLocation.create, processBoundary, hs, hp]

/-- Witness for C7 with the test suite's invalid WKT input. -/
theorem parse_error_propagation_witness :
    GeoLocation.create (fun t => Except.error ("ParseException: " ++ t)) ⟨"10115"⟩
      (PyVal.str "INVALID WKT STRING") =
      Except.error (GeoError.parseFailure "ParseException: INVALID WKT STRING") :=
  parse_error_propagation (fun t => Except.error ("ParseException: " ++ t)) ⟨"10115"⟩
    "INVALID WKT STRING" "ParseException: INVALID WKT STRING" (by decide) (by rfl)

/-- C9: every successfully constructed `GeoLocation` has `empty` = false;
in this pure embedding the property is a function of the immutable stored
boundary only (it takes no parser), so re-evaluating it cannot re-parse or
change the object. -/
theorem empty_false_after_construction (parse : String → Except String String)
    (pc : PostalCode) (b : PyVal) (gl : GeoLocation)
    (h : GeoLocation.create parse pc b = Except.ok gl) :
    GeoLocation.empty gl = false := by
  cases b with
  | none => simp [GeoLocation.create] at h
  | int n =>
    simp [GeoLocation.create] at h
    subst h
    rfl
  | gdf g =>
    cases hg : GeoDataFrame.isEmptyFrame g with
    | true => simp [GeoLocation.create, hg] at h
    | false =>
      simp [GeoLocation.create, hg] at h
      subst h
      simp [GeoLocation.empty, hg]
  | str s =>
    by_cases hs : s = ""
    · simp [GeoLocation.create, processBoundary, hs] at h
    · cases hp : parse s with
      | error e => simp [GeoLocation.create, processBoundary, hs, hp] at h
      | ok g =>
        simp [GeoLocation.create, processBoundary, hs, hp,
          GeoDataFrame.isEmptyFrame] at h
        subst h
        simp [GeoLocation.empty, GeoDataFrame.isEmptyFrame]

/-- Witness for C9 at a non-geometry boundary accepted by construction. -/
theorem empty_false_after_construction_witness :
    GeoLocation.empty ⟨⟨"10115"⟩, PyVal.int 7⟩ = false :=
  empty_false_after_construction (fun t => Except.ok t) ⟨"10115"⟩ (PyVal.int 7)
    ⟨⟨"10115"⟩, PyVal.int 7⟩ (by rfl)

/-- C10: construction fails with `InvalidGeoLocationError` exactly when
the boundary stored after the optional WKT parse is `None` or an empty
GeoDataFrame; any other value, including an integer, is accepted and
stored unvalidated. -/
theorem invalid_error_characterization (parse : String → Except String String)
    (pc : PostalCode) (b : PyVal) :
    ((∃ msg, GeoLocation.create parse pc b =
        Except.error (GeoError.invalidGeoLocation msg)) ↔
      (resolveBoundary parse b = Except.ok PyVal.none
        ∨ ∃ g, resolveBoundary parse b = Except.ok (PyVal.gdf g)
          ∧ GeoDataFrame.isEmptyFrame g = true))
    ∧ ∀ n : Int, GeoLocation.create parse pc (PyVal.int n) =
        Except.ok ⟨pc, PyVal.int n⟩ := by
  constructor
  · cases b with
    | none => simp [GeoLocation.create, resolveBoundary]
    | int n => simp [GeoLocation.create, resolveBoundary]
    | gdf g =>
      cases hg : GeoDataFrame.isEmptyFrame g with
      | true => simp [GeoLocation.create, resolveBoundary, hg]
      | false => simp [GeoLocation.create, resolveBoundary, hg]
    | str s =>
      by_cases hs : s = ""
      · simp [GeoLocation.create, processBoundary, resolveBoundary, hs]
      · cases hp : parse s with
        | error e =>
          simp [GeoLocation.create, processBoundary, resolveBoundary, hs, hp]
        | ok g =>
          simp [GeoLocation.create, processBoundary, resolveBoundary, hs, hp,
            GeoDataFrame.isEmptyFrame]
  · intro n
    rfl

/-- Witness for C10: an integer boundary is accepted and stored as is. -/
theorem invalid_error_characterization_witness :
    GeoLocation.create (fun t => Except.ok t) ⟨"10115"⟩ (PyVal.int 42) =
      Except.ok ⟨⟨"10115"⟩, PyVal.int 42⟩ :=
  (invalid_error_characterization (fun t => Except.ok t) ⟨"10115"⟩ (PyVal.int 42)).2 42

end EVision
